import Mathlib

/-!
A verification development for the `pyfits2itk` repository (files
`fits2itk.py`, `ngc1333_conv.py`, `setup.py`, `strip_fourth_fits_header.py`).

The embedding models `fits2itk.convert`, `fits2itk.read` and the keyword
handling of `fits2itk.main`.  The source file is Python 2 (line 162 uses the
`except getopt.GetoptError,err:` clause syntax, which is a syntax error in
Python 3), so `/` between integers is floor division; `/` with a float
operand is true division.  Python floats are modelled exactly as rationals
(`ℚ`); the single transcendental operation `np.cos` forces the geometry
output into `ℝ`.  The external collaborators (FITS reader, NRRD writer,
`getopt` argument parsing) are modelled by passing the decoded array and
header in directly and by returning the payload that would be handed to the
writer; `importlib.import_module`'s module search path is modelled as an
explicit environment `String → Option ConvDict`.
-/

/-- A 3-D numpy-style array: three axis lengths and an index function. -/
structure Arr3 (α : Type) where
  s0 : ℕ
  s1 : ℕ
  s2 : ℕ
  data : Fin s0 → Fin s1 → Fin s2 → α

/-- Pointwise map over every element (models `d *= data_scale` etc.). -/
def mapArr {α β : Type} (f : α → β) (a : Arr3 α) : Arr3 β :=
  ⟨a.s0, a.s1, a.s2, fun i j k => f (a.data i j k)⟩

/-- `np.swapaxes(d, 0, 1)`. -/
def swapaxes01 {α : Type} (a : Arr3 α) : Arr3 α :=
  ⟨a.s1, a.s0, a.s2, fun i j k => a.data j i k⟩

/-- `np.swapaxes(d, 0, 2)`. -/
def swapaxes02 {α : Type} (a : Arr3 α) : Arr3 α :=
  ⟨a.s2, a.s1, a.s0, fun i j k => a.data k j i⟩

/-- The axis reorder performed by `convert` (fits2itk.py lines 107-108):
`d = np.swapaxes(d,0,1)` followed by `d = np.swapaxes(d,0,2)`. -/
def reorder {α : Type} (a : Arr3 α) : Arr3 α :=
  swapaxes02 (swapaxes01 a)

/-- The dynamically typed value accepted by `convert`'s `vel_scale`
parameter: the default `False`, a number (Python 2 floats and ints are
modelled exactly as rationals), or a string such as `"auto"`. -/
inductive PyVal where
  | pyFalse
  | num (q : ℚ)
  | str (s : String)
deriving DecidableEq

/-- Python truthiness of a `PyVal` (`if not vel_scale:`):
`False`, `0` and `""` are falsy. -/
def pyTruthy : PyVal → Bool
  | PyVal.pyFalse => false
  | PyVal.num q => q != 0
  | PyVal.str s => s != ""

/-- The FITS header fields read by `convert`: `NAXIS1/2/3` (positive integer
axis lengths for RA, Dec, Velocity), `CRPIX1/2/3`, `CRVAL1/2/3`,
`CDELT1/2/3` (floats, modelled exactly). -/
structure FitsHeader where
  naxis1 : ℕ
  naxis2 : ℕ
  naxis3 : ℕ
  crpix1 : ℚ
  crpix2 : ℚ
  crpix3 : ℚ
  crval1 : ℚ
  crval2 : ℚ
  crval3 : ℚ
  cdelt1 : ℚ
  cdelt2 : ℚ
  cdelt3 : ℚ
deriving DecidableEq

/-- The six entries of a convention module's `c_dict`
(keys `ra-mm`, `dec-mm`, `vel-mm`, `ra0`, `dec0`, `vel0`). -/
structure ConvDict where
  ra_mm : ℚ
  dec_mm : ℚ
  vel_mm : ℚ
  ra0 : ℚ
  dec0 : ℚ
  vel0 : ℚ
deriving DecidableEq

/-- The `c_dict` defined in `ngc1333_conv.py`. -/
def c_dict : ConvDict :=
  { ra_mm := 900
  , dec_mm := 900
  , vel_mm := 1 / 10
  , ra0 := 5224 / 100
  , dec0 := 314 / 10
  , vel0 := 7800 }

/-- The Python exceptions a call can raise.  `typeError` is raised by
arithmetic on a non-numeric `vel_scale` (e.g. `dvel/vel_scale` at line 101
or `...*vel_scale` at line 120); `importError` by
`importlib.import_module` when the named convention module does not exist
(line 117); `nameError` by `read`'s reference to the undefined global
`nrdd` (line 145).  `invalidScaleError` and `unknownConventionError` are
the error kinds named by the specification; the program defines no such
classes and never raises them — the constructors exist only so that the
specification's statements about them can be written down. -/
inductive PyError where
  | typeError
  | importError
  | nameError
  | invalidScaleError
  | unknownConventionError
deriving DecidableEq

/-- The metadata bundle `convert` hands to `nrrd.write` (lines 129-140):
`space`, the three `space directions` row vectors (rational: no
transcendental enters them), `kinds`, `space origin`, `encoding`.  The
origin lives in a scalar field `R`: in convention mode its RA component
contains a cosine, so the theorems instantiate `R := ℝ`; keeping `R` a
parameter keeps every definition computable. -/
structure NrrdOptions (R : Type) where
  space : String
  dir0 : ℚ × ℚ × ℚ
  dir1 : ℚ × ℚ × ℚ
  dir2 : ℚ × ℚ × ℚ
  kinds : List String
  origin : R × R × R
  encoding : String

/-- The payload of the final `nrrd.write(outfile, d, options=options)`
call: the reordered pixel array and the options bundle.  A conversion that
raises an exception never reaches this call, so an `Except.error` result
means no output is written. -/
structure ConvertOutput (R : Type) where
  data : Arr3 ℚ
  opts : NrrdOptions R

/-- Lines 86-91 of `fits2itk.py`: the velocity-scale resolution.
A falsy input becomes `1.`; the literal string `"auto"` becomes
`np.min([h['NAXIS1'],h['NAXIS2']]) / h['NAXIS3']` — under Python 2 this is
integer floor division (`np.int64 / int`); any other value passes through
unchanged. -/
def resolveVelScale (vs : PyVal) (h : FitsHeader) : PyVal :=
  if pyTruthy vs = false then PyVal.num 1
  else if vs = PyVal.str "auto" then
    PyVal.num (((min h.naxis1 h.naxis2) / h.naxis3 : ℕ) : ℚ)
  else vs

/-- `fits2itk.convert` (lines 49-142), with the external FITS reader
replaced by the already-decoded `(d, h)` pair and the importable
convention modules by `env`.  `R`, `cos` and `pi` stand for the scalar
field of the geometry output and numpy's `np.cos`/`np.pi`; the theorems
instantiate them with `ℝ`, `Real.cos` and `Real.pi`.  The input array is
in numpy order (Velocity, Dec, RA); the returned array is in
(RA, Velocity, Dec) order.  Caveat: the only divergence from the source
is that divisions by zero (e.g. `1./vel_scale` when auto-resolution
floors to `0`) yield `0` in `ℚ` where numpy would produce `inf`; no
theorem below depends on that case. -/
def convert (R : Type) [Field R] (cos : R → R) (pi : R)
    (env : String → Option ConvDict) (d : Arr3 ℚ) (h : FitsHeader)
    (data_scale : ℚ) (vel_scale : PyVal) (use_conv : Option String) :
    Except PyError (ConvertOutput R) :=
  let d1 : Arr3 ℚ := if data_scale ≠ 0 then mapArr (fun x => x * data_scale) d else d
  let vs : PyVal := resolveVelScale vel_scale h
  let convSel : Option String :=
    match use_conv with
    | some name => if name = "" then none else some name
    | none => none
  let dvelRes : Except PyError ℚ :=
    if vs ≠ PyVal.num 1 ∧ convSel = none then
      match vs with
      | PyVal.num q => Except.ok (1 / q)
      | _ => Except.error PyError.typeError
    else Except.ok 1
  match dvelRes with
  | Except.error e => Except.error e
  | Except.ok dvel0 =>
      let d2 : Arr3 ℚ := reorder d1
      match convSel with
      | none =>
          let dra : ℚ := 1
          let ddec : ℚ := 1
          let racenter : ℚ := (h.naxis1 : ℚ) / 2
          let deccenter : ℚ := -1 * ((h.naxis2 : ℚ) / 2)
          let velcenter : ℚ := -1 * ((h.naxis3 : ℚ) / 2)
          Except.ok
            { data := d2
            , opts :=
              { space := "left-posterior-superior"
              , dir0 := (-1 * dra, 0, 0)
              , dir1 := (0, dvel0, 0)
              , dir2 := (0, 0, ddec)
              , kinds := ["domain", "domain", "domain"]
              , origin :=
                  (((racenter * dra : ℚ) : R),
                   ((velcenter * dvel0 : ℚ) : R),
                   ((deccenter * ddec : ℚ) : R))
              , encoding := "raw" } }
      | some name =>
          match env name with
          | none => Except.error PyError.importError
          | some c =>
              match vs with
              | PyVal.num q =>
                  let dra : ℚ := h.cdelt1 * c.ra_mm
                  let ddec : ℚ := h.cdelt2 * c.dec_mm
                  let dvel : ℚ := h.cdelt3 * c.vel_mm * q
                  let ra0 : ℚ := c.ra0
                  let dec0 : ℚ := c.dec0
                  let vel0 : ℚ := c.vel0 / q
                  let racenter : R :=
                    ((ra0 : R) - (h.crval1 : R)) *
                        cos ((c.dec0 : R) * pi / 180) /
                        (h.cdelt1 : R) +
                      (h.crpix1 : R)
                  let deccenter : ℚ := -1 * ((dec0 - h.crval2) / h.cdelt2 + h.crpix2)
                  let velcenter : ℚ := -1 * ((vel0 - h.crval3) / h.cdelt3 + h.crpix3)
                  Except.ok
                    { data := d2
                    , opts :=
                      { space := "left-posterior-superior"
                      , dir0 := (-1 * dra, 0, 0)
                      , dir1 := (0, dvel, 0)
                      , dir2 := (0, 0, ddec)
                      , kinds := ["domain", "domain", "domain"]
                      , origin :=
                          (racenter * (dra : R),
                           ((velcenter * dvel : ℚ) : R),
                           ((deccenter * ddec : ℚ) : R))
                      , encoding := "raw" } }
              | _ => Except.error PyError.typeError

/-- The global names actually bound at module level in `fits2itk.py`
(imports and top-level defs).  `nrdd` is not among them. -/
def fits2itkGlobals : List String :=
  ["nrrd", "fits", "np", "importlib", "sys", "os", "getopt",
   "convert", "read", "main"]

/-- `fits2itk.read` (lines 144-146).  Its body evaluates `nrdd.read(...)`;
looking up the name `nrdd` in the module globals fails, so the call raises
`NameError` before anything else happens.  (If the name did resolve, the
call to the reader would proceed; that branch is unreachable.) -/
def read (inputfile : String) : Except PyError Unit :=
  if "nrdd" ∈ fits2itkGlobals then Except.ok () else Except.error PyError.nameError

/-- A command-line option as produced by
`getopt.getopt(sys.argv[1:],"i:o:d:v:u:h")` with the value conversions
`main` applies (`float(a)` for `-d` and `-v`).  Argument parsing itself is
an external collaborator; the model starts from the parsed list. -/
inductive CliOpt where
  | i (a : String)
  | o (a : String)
  | d (a : ℚ)
  | v (a : ℚ)
  | u (a : String)
  | h
deriving DecidableEq

/-- Is this a `-v` option? -/
def isVelOpt : CliOpt → Bool
  | CliOpt.v _ => true
  | _ => false

/-- The keyword arguments `main` passes to `convert`. -/
structure MainKwargs where
  data_scale : Option ℚ
  vel_scale : PyVal
  use_conv : Option String
deriving DecidableEq

/-- Lines 157-188 of `fits2itk.py`: `main` initialises
`kwargs["vel_scale"] = "auto"` and then overwrites entries while walking
the option list (`-d`, `-v`, `-u`; `-i`/`-o` set the file names and `-h`
prints help). -/
def mainStep (k : MainKwargs) (o : CliOpt) : MainKwargs :=
  match o with
  | CliOpt.i _ => k
  | CliOpt.o _ => k
  | CliOpt.d a => { k with data_scale := some a }
  | CliOpt.v a => { k with vel_scale := PyVal.num a }
  | CliOpt.u a => { k with use_conv := some a }
  | CliOpt.h => k

/-- The kwargs dictionary `main` has built once the option walk finishes,
starting from the initial `kwargs["vel_scale"] = "auto"` (line 159). -/
def mainKwargs (opts : List CliOpt) : MainKwargs :=
  opts.foldl mainStep
    { data_scale := none, vel_scale := PyVal.str "auto", use_conv := none }

/-- Project the options bundle out of a conversion result. -/
def getOpts {R : Type} (r : Except PyError (ConvertOutput R)) : Option (NrrdOptions R) :=
  match r with
  | Except.ok o => some o.opts
  | Except.error _ => none

/-- Project the written array's axis lengths, in written (RA, Velocity,
Dec) order, out of a conversion result. -/
def getShape {R : Type} (r : Except PyError (ConvertOutput R)) : Option (ℕ × ℕ × ℕ) :=
  match r with
  | Except.ok o => some (o.data.s0, o.data.s1, o.data.s2)
  | Except.error _ => none

/-- Project the velocity row of `space directions` out of a conversion
result. -/
def getDir1 {R : Type} (r : Except PyError (ConvertOutput R)) : Option (ℚ × ℚ × ℚ) :=
  match r with
  | Except.ok o => some o.opts.dir1
  | Except.error _ => none

/-- Did the conversion succeed (reach the writer)? -/
def isOkB {ε α : Type} (r : Except ε α) : Bool :=
  match r with
  | Except.ok _ => true
  | Except.error _ => false

/-- The velocity-axis spacing the specification prescribes for
no-convention mode: `1/velocity_scale` when the scale differs from 1,
otherwise 1. -/
def specDvelNoConv (q : ℚ) : ℚ :=
  if q = 1 then 1 else 1 / q

/-- The no-convention geometry exactly as the specification words it:
spacing diagonal `(-dra, dvel, ddec)` with `dra = ddec = 1` and
`dvel = specDvelNoConv q`, origin
`(NAXIS1/2 * dra, -(NAXIS3/2) * dvel, -(NAXIS2/2) * ddec)`. -/
def specNoConvOptions (R : Type) [Field R] (h : FitsHeader) (q : ℚ) : NrrdOptions R :=
  { space := "left-posterior-superior"
  , dir0 := (-1, 0, 0)
  , dir1 := (0, specDvelNoConv q, 0)
  , dir2 := (0, 0, 1)
  , kinds := ["domain", "domain", "domain"]
  , origin :=
      ((h.naxis1 : R) / 2,
       -((h.naxis3 : R) / 2) * ((specDvelNoConv q : ℚ) : R),
       -((h.naxis2 : R) / 2))
  , encoding := "raw" }

/-- The convention-mode geometry exactly as the specification words it:
`dra = CDELT1*ra_mm`, `ddec = CDELT2*dec_mm`, `dvel = CDELT3*vel_mm*q`,
centers per the WCS-style inverse formulas, origin
`(racenter*dra, velcenter*dvel, deccenter*ddec)`. -/
def specConvOptions (R : Type) [Field R] (cos : R → R) (pi : R)
    (h : FitsHeader) (c : ConvDict) (q : ℚ) : NrrdOptions R :=
  let dra : ℚ := h.cdelt1 * c.ra_mm
  let ddec : ℚ := h.cdelt2 * c.dec_mm
  let dvel : ℚ := h.cdelt3 * c.vel_mm * q
  let racenter : R :=
    ((c.ra0 : R) - (h.crval1 : R)) * cos ((c.dec0 : R) * pi / 180) /
        (h.cdelt1 : R) +
      (h.crpix1 : R)
  let deccenter : ℚ := -((c.dec0 - h.crval2) / h.cdelt2 + h.crpix2)
  let velcenter : ℚ := -((c.vel0 / q - h.crval3) / h.cdelt3 + h.crpix3)
  { space := "left-posterior-superior"
  , dir0 := (-dra, 0, 0)
  , dir1 := (0, dvel, 0)
  , dir2 := (0, 0, ddec)
  , kinds := ["domain", "domain", "domain"]
  , origin :=
      (racenter * (dra : R),
       ((velcenter * dvel : ℚ) : R),
       ((deccenter * ddec : ℚ) : R))
  , encoding := "raw" }

/-- The automatic scale the specification prescribes:
`min(length(RA), length(Dec)) / length(Velocity)` as an exact rational
quotient. -/
def specAutoScale (h : FitsHeader) : ℚ :=
  ((min h.naxis1 h.naxis2 : ℕ) : ℚ) / ((h.naxis3 : ℕ) : ℚ)

/-- A concrete 1-element array for witnesses. -/
def arr111 : Arr3 ℚ :=
  ⟨1, 1, 1, fun _ _ _ => 0⟩

/-- A concrete (V,D,R) = (2,3,4) array for counterexamples. -/
def arr234 : Arr3 ℚ :=
  ⟨2, 3, 4, fun _ _ _ => 0⟩

/-- A concrete 2×2×2 natural-number array whose entries are all distinct. -/
def arrCube : Arr3 ℕ :=
  ⟨2, 2, 2, fun i j k => 4 * i.val + 2 * j.val + k.val⟩

/-- An environment in which only `ngc1333_conv` is importable. -/
def ngcEnv : String → Option ConvDict :=
  fun s => if s = "ngc1333_conv" then some c_dict else none

/-- An environment with no importable convention modules. -/
def emptyEnv : String → Option ConvDict :=
  fun _ => none

/-- A header matching the array shape of `arr234`:
NAXIS1 = 4 (RA), NAXIS2 = 3 (Dec), NAXIS3 = 2 (Velocity). -/
def hdr432 : FitsHeader :=
  { naxis1 := 4, naxis2 := 3, naxis3 := 2
  , crpix1 := 0, crpix2 := 0, crpix3 := 0
  , crval1 := 0, crval2 := 0, crval3 := 0
  , cdelt1 := 1, cdelt2 := 1, cdelt3 := 1 }

/-- The header of the specification's end-to-end scenarios:
NAXIS1 = 100, NAXIS2 = 80, NAXIS3 = 50. -/
def hdrScenario : FitsHeader :=
  { naxis1 := 100, naxis2 := 80, naxis3 := 50
  , crpix1 := 50, crpix2 := 40, crpix3 := 10
  , crval1 := 5224 / 100, crval2 := 31, crval3 := 7000
  , cdelt1 := -1 / 100, cdelt2 := 1 / 100, cdelt3 := 100 }

/-- Velocity-scale resolution passes a non-empty, non-`"auto"` string
through unchanged (lines 86-91 have no other branch). -/
lemma resolveVelScale_str (s : String) (h : FitsHeader)
    (hs1 : s ≠ "") (hs2 : s ≠ "auto") :
    resolveVelScale (PyVal.str s) h = PyVal.str s := by
  simp [resolveVelScale, pyTruthy, hs1, hs2]

/-- Folding `mainStep` over options that contain no `-v` never touches the
`vel_scale` entry. -/
lemma mainStep_foldl_vel_scale (opts : List CliOpt) (k : MainKwargs)
    (hnv : opts.all (fun o => !isVelOpt o) = true) :
    (opts.foldl mainStep k).vel_scale = k.vel_scale := by
  induction opts generalizing k with
  | nil => rfl
  | cons o rest ih =>
      rw [List.all_cons, Bool.and_eq_true] at hnv
      rw [List.foldl_cons, ih (mainStep k o) hnv.2]
      cases o with
      | i a => rfl
      | o a => rfl
      | d a => rfl
      | v a => simp [isVelOpt] at hnv
      | u a => rfl
      | h => rfl

/-- C6: the axis reorder performed by `convert` is the fixed permutation
"swap axes (0,1), then swap axes (0,2) of the result": applied to a
(V, D, R)-shaped array it yields an (R, V, D)-shaped array whose element
at target index (r, v, d) is the source element at (v, d, r), and no axis
length changes. -/
theorem reorder_is_swap01_swap02 (α : Type) (a : Arr3 α) :
    reorder a = swapaxes02 (swapaxes01 a) ∧
      (reorder a).s0 = a.s2 ∧ (reorder a).s1 = a.s0 ∧ (reorder a).s2 = a.s1 ∧
      ∀ (r : Fin a.s2) (v : Fin a.s0) (d : Fin a.s1),
        (reorder a).data r v d = a.data v d r :=
  ⟨rfl, rfl, rfl, rfl, fun _ _ _ => rfl⟩

/-- C7 counterexample: the reorder is not an involution.  On the concrete
2×2×2 array `arrCube` (all entries distinct), applying the reorder twice
moves the entry at index (0,0,1): the claim that two applications return
an identical array is false at this input. -/
theorem reorder_twice_changes_arrCube :
    (reorder (reorder arrCube)).data ⟨0, by decide⟩ ⟨0, by decide⟩ ⟨1, by decide⟩ ≠
      arrCube.data ⟨0, by decide⟩ ⟨0, by decide⟩ ⟨1, by decide⟩ := by
  decide

/-- C7 amended: the reorder is a 3-cycle of the axes, so applying it three
times (not two) returns any 3-D array unchanged. -/
theorem reorder_three_times_id (α : Type) (a : Arr3 α) :
    reorder (reorder (reorder a)) = a := rfl

/-- C10: `read` references the undefined global name `nrdd` (the module
only binds `nrrd`), so for every input path it raises `NameError` and
never returns data. -/
theorem read_raises_nameError (inputfile : String) :
    read inputfile = Except.error PyError.nameError := rfl

/-- C3: evaluation at the failing input.  For the header of the
specification's own end-to-end scenarios (NAXIS1 = 100, NAXIS2 = 80,
NAXIS3 = 50), resolving `"auto"` yields 1 — Python 2 integer floor
division of `np.min([100,80]) / 50` — whereas the exact rational quotient
`min(NAXIS1, NAXIS2) / NAXIS3` the claim (and the `convert` docstring's
own `vel_scale = 0.1` example) prescribes is 8/5. -/
theorem resolveVelScale_auto_floors :
    resolveVelScale (PyVal.str "auto") hdrScenario = PyVal.num 1 ∧
      specAutoScale hdrScenario = 8 / 5 ∧ (1 : ℚ) ≠ 8 / 5 := by
  refine ⟨by decide, ?_, by norm_num⟩
  show ((min hdrScenario.naxis1 hdrScenario.naxis2 : ℕ) : ℚ) / ((hdrScenario.naxis3 : ℕ) : ℚ) = 8 / 5
  norm_num [hdrScenario]

/-- C2 counterexample: with the velocity-scale input `"bogus"` (neither
falsy, nor `"auto"`, nor a number) the conversion fails, but with the
`TypeError` raised by `dvel = dvel/vel_scale` at line 101 — not with an
`InvalidScaleError`, a class the program never defines or raises. -/
theorem convert_bogus_scale_raises_typeError :
    convert ℝ Real.cos Real.pi ngcEnv arr111 hdr432 1 (PyVal.str "bogus") none =
        Except.error PyError.typeError ∧
      PyError.typeError ≠ PyError.invalidScaleError :=
  ⟨rfl, by decide⟩

/-- C2 amended: for every header and every non-falsy, non-`"auto"`,
non-numeric velocity-scale input, the conversion fails — with a `TypeError`
once the unresolved string reaches arithmetic (line 101 without a
convention, line 120 with one; an unknown convention name fails at the
line 117 import first) — and in particular never silently proceeds with
the scale treated as 1.0. -/
theorem convert_nonNumeric_scale_fails (env : String → Option ConvDict)
    (d : Arr3 ℚ) (h : FitsHeader) (ds : ℚ) (s : String) (uc : Option String)
    (hs1 : s ≠ "") (hs2 : s ≠ "auto") :
    isOkB (convert ℝ Real.cos Real.pi env d h ds (PyVal.str s) uc) = false ∧
      convert ℝ Real.cos Real.pi env d h ds (PyVal.str s) none =
        Except.error PyError.typeError := by
  have hres := resolveVelScale_str s h hs1 hs2
  constructor
  · cases uc with
    | none => simp [convert, hres, isOkB]
    | some name =>
        by_cases hn : name = ""
        · subst hn
          simp [convert, hres, isOkB]
        · cases henv : env name with
          | none => simp [convert, hres, isOkB, hn, henv]
          | some c => simp [convert, hres, isOkB, hn, henv]
  · simp [convert, hres]

/-- C8 counterexample: naming a convention module that cannot be imported
fails with the `ImportError` raised by `importlib.import_module` at
line 117 — not with an `UnknownConventionError`, a class the program never
defines or raises (the failure does abort the call before any output is
written). -/
theorem convert_unknown_conv_raises_importError :
    convert ℝ Real.cos Real.pi ngcEnv arr111 hdr432 1 (PyVal.num 1) (some "nope") =
        Except.error PyError.importError ∧
      PyError.importError ≠ PyError.unknownConventionError :=
  ⟨rfl, by decide⟩

/-- C8 amended: for every conversion call naming a non-empty convention
that the module environment cannot resolve, the conversion fails with the
line 117 `ImportError`, so the writer is never invoked and no output is
written. -/
theorem convert_unknown_conv_fails (env : String → Option ConvDict)
    (d : Arr3 ℚ) (h : FitsHeader) (ds : ℚ) (vsin : PyVal) (name : String)
    (hname : name ≠ "") (henv : env name = none) :
    convert ℝ Real.cos Real.pi env d h ds vsin (some name) =
      Except.error PyError.importError := by
  simp [convert, hname, henv]

/-- C8 witness: a concrete run of the amended statement. -/
theorem convert_unknown_conv_fails_witness :
    convert ℝ Real.cos Real.pi ngcEnv arr111 hdr432 1 (PyVal.str "auto") (some "other_conv") =
      Except.error PyError.importError :=
  convert_unknown_conv_fails ngcEnv arr111 hdr432 1 (PyVal.str "auto") "other_conv"
    (by decide) rfl

/-- C1 counterexample: with resolved velocity scale 2 (≠ 1) and no
convention, the claim demands a written velocity axis length of
`round(NAXIS3 * 2) = 4`; the code performs no resampling, so the written
array keeps velocity length `NAXIS3 = 2` (shape shown in written
(RA, Velocity, Dec) order). -/
theorem convert_writes_unresampled_length :
    getShape (convert ℝ Real.cos Real.pi emptyEnv arr234 hdr432 1 (PyVal.num 2) none) =
        some (4, 2, 3) ∧
      (2 : ℚ) ≠ 1 ∧ ((2 : ℕ) : ℤ) ≠ round ((hdr432.naxis3 : ℚ) * 2) := by
  refine ⟨rfl, by decide, ?_⟩
  have h4 : ((hdr432.naxis3 : ℚ) * 2) = ((4 : ℤ) : ℚ) := by norm_num [hdr432]
  rw [h4, round_intCast]
  decide

/-- C1 amended: when the resolved velocity scale q differs from 1 and no
convention is supplied, `convert` does not resample at all — every axis
length of the written array is an axis length of the input array, the
velocity length in particular staying `NAXIS3` rather than becoming
`round(NAXIS3 * q)` — and the velocity spacing is set to `1/q` instead
(no `ResampleError` exists or can be raised). -/
theorem convert_noConv_no_resample (env : String → Option ConvDict)
    (d : Arr3 ℚ) (h : FitsHeader) (ds : ℚ) (vsin : PyVal) (q : ℚ)
    (hd3 : d.s0 = h.naxis3)
    (hres : resolveVelScale vsin h = PyVal.num q) (hq : q ≠ 1) :
    getShape (convert ℝ Real.cos Real.pi env d h ds vsin none) =
        some (d.s2, h.naxis3, d.s1) ∧
      getDir1 (convert ℝ Real.cos Real.pi env d h ds vsin none) = some (0, 1 / q, 0) := by
  rw [← hd3]
  constructor
  · by_cases hds : ds = 0 <;>
      simp [convert, hres, hq, getShape, hds, reorder, swapaxes01, swapaxes02, mapArr]
  · by_cases hds : ds = 0 <;>
      simp [convert, hres, hq, getDir1, hds]

/-- C1 witness: a concrete run of the amended statement. -/
theorem convert_noConv_no_resample_witness :
    getShape (convert ℝ Real.cos Real.pi emptyEnv arr234 hdr432 1 (PyVal.num 2) none) =
        some (arr234.s2, hdr432.naxis3, arr234.s1) ∧
      getDir1 (convert ℝ Real.cos Real.pi emptyEnv arr234 hdr432 1 (PyVal.num 2) none) =
        some (0, 1 / 2, 0) :=
  convert_noConv_no_resample emptyEnv arr234 hdr432 1 (PyVal.num 2) 2 rfl rfl (by decide)

/-- C4: in no-convention mode, for every header and every input resolving
to a numeric velocity scale q, `convert` writes the spacing vectors
`((-dra,0,0),(0,dvel,0),(0,0,ddec))` with `dra = ddec = 1` and
`dvel = 1/q` when `q ≠ 1` (otherwise 1), and the origin
`(NAXIS1/2 * dra, -(NAXIS3/2) * dvel, -(NAXIS2/2) * ddec)`; for `q = 1`
this is the spacing diagonal `(-1,1,1)` with origin
`(NAXIS1/2, -NAXIS3/2, -NAXIS2/2)`. -/
theorem convert_noConv_writes_spec_geometry (env : String → Option ConvDict)
    (d : Arr3 ℚ) (h : FitsHeader) (ds : ℚ) (vsin : PyVal) (q : ℚ)
    (hres : resolveVelScale vsin h = PyVal.num q) :
    getOpts (convert ℝ Real.cos Real.pi env d h ds vsin none) =
      some (specNoConvOptions ℝ h q) := by
  by_cases hq : q = 1
  · subst hq
    simp [convert, hres, getOpts, specNoConvOptions, specDvelNoConv,
      NrrdOptions.mk.injEq, Prod.mk.injEq]
  · simp [convert, hres, hq, getOpts, specNoConvOptions, specDvelNoConv,
      NrrdOptions.mk.injEq, Prod.mk.injEq]

/-- C4 witness: a concrete run (the scenario header, `"auto"` resolving to
the numeric scale 1). -/
theorem convert_noConv_writes_spec_geometry_witness :
    getOpts (convert ℝ Real.cos Real.pi emptyEnv arr111 hdrScenario 1 (PyVal.str "auto") none) =
      some (specNoConvOptions ℝ hdrScenario 1) :=
  convert_noConv_writes_spec_geometry emptyEnv arr111 hdrScenario 1 (PyVal.str "auto") 1
    (by decide)

/-- C2 witness: a concrete run of the amended statement at the input
`"bogus"`. -/
theorem convert_nonNumeric_scale_fails_witness :
    isOkB (convert ℝ Real.cos Real.pi ngcEnv arr111 hdr432 1 (PyVal.str "bogus")
        (some "ngc1333_conv")) = false ∧
      convert ℝ Real.cos Real.pi ngcEnv arr111 hdr432 1 (PyVal.str "bogus") none =
        Except.error PyError.typeError :=
  convert_nonNumeric_scale_fails ngcEnv arr111 hdr432 1 "bogus" (some "ngc1333_conv")
    (by decide) (by decide)

/-- C5: in convention mode, for every header, convention and input
resolving to a numeric velocity scale q, `convert` computes
`dra = CDELT1*ra_mm`, `ddec = CDELT2*dec_mm`, `dvel = CDELT3*vel_mm*q`,
the centers `racenter = (ra0 - CRVAL1)*cos(dec0*pi/180)/CDELT1 + CRPIX1`,
`deccenter = -((dec0 - CRVAL2)/CDELT2 + CRPIX2)`,
`velcenter = -((vel0/q - CRVAL3)/CDELT3 + CRPIX3)`, and writes the origin
`(racenter*dra, velcenter*dvel, deccenter*ddec)`. -/
theorem convert_convention_writes_spec_geometry (env : String → Option ConvDict)
    (d : Arr3 ℚ) (h : FitsHeader) (ds : ℚ) (vsin : PyVal) (q : ℚ)
    (name : String) (c : ConvDict)
    (hname : name ≠ "") (henv : env name = some c)
    (hres : resolveVelScale vsin h = PyVal.num q) :
    getOpts (convert ℝ Real.cos Real.pi env d h ds vsin (some name)) =
      some (specConvOptions ℝ Real.cos Real.pi h c q) := by
  simp [convert, hres, hname, henv, getOpts, specConvOptions,
    NrrdOptions.mk.injEq, Prod.mk.injEq]

/-- C5 witness: a concrete run with the NGC 1333 convention,
`vel_scale = 1000` (a cube in km/s) and the scenario header. -/
theorem convert_convention_writes_spec_geometry_witness :
    getOpts (convert ℝ Real.cos Real.pi ngcEnv arr111 hdrScenario 1 (PyVal.num 1000)
        (some "ngc1333_conv")) =
      some (specConvOptions ℝ Real.cos Real.pi hdrScenario c_dict 1000) :=
  convert_convention_writes_spec_geometry ngcEnv arr111 hdrScenario 1 (PyVal.num 1000) 1000
    "ngc1333_conv" c_dict (by decide) rfl rfl

/-- C9: invoked without a `-v` option, `main` passes
`vel_scale = "auto"` to `convert` (the automatic rule applies by default),
unlike a direct library call, whose `vel_scale` parameter defaults to
`False` — a falsy value the resolution step turns into the numeric scale
1.0. -/
theorem main_defaults_vel_scale_auto (opts : List CliOpt)
    (hnv : opts.all (fun o => !isVelOpt o) = true) :
    (mainKwargs opts).vel_scale = PyVal.str "auto" ∧
      PyVal.str "auto" ≠ PyVal.pyFalse ∧
      ∀ hd : FitsHeader, resolveVelScale PyVal.pyFalse hd = PyVal.num 1 := by
  refine ⟨?_, by decide, fun hd => rfl⟩
  simpa [mainKwargs] using
    mainStep_foldl_vel_scale opts
      { data_scale := none, vel_scale := PyVal.str "auto", use_conv := none } hnv

/-- C9 witness: a concrete invocation with only `-i` and `-o` given. -/
theorem main_defaults_vel_scale_auto_witness :
    (mainKwargs [CliOpt.i "ngc1333_co.fits", CliOpt.o "ngc1333_co.nrrd"]).vel_scale =
        PyVal.str "auto" ∧
      PyVal.str "auto" ≠ PyVal.pyFalse ∧
      ∀ hd : FitsHeader, resolveVelScale PyVal.pyFalse hd = PyVal.num 1 :=
  main_defaults_vel_scale_auto [CliOpt.i "ngc1333_co.fits", CliOpt.o "ngc1333_co.nrrd"] rfl
